import Mathlib

/-!
Verification of the marketplace listing pipeline
(`src/project/src/pages/Marketplace.tsx`).

The file shallowly embeds the data pipeline of the Marketplace page:
the `fetchRooms` loader (properties query, per-property room queries,
city facet, saved-state resolution), the `filteredRooms` filter/sort
engine, and the `handleSaveRoom` bookmark toggle.  External store and
auth calls are modelled as explicit inputs (oracles): each theorem
quantifies over every possible store response.

Modelling conventions:
* JavaScript strings are Lean `String`s; `toLowerCase()` is
  `jsToLower` (ASCII case folding via `Char.toLower`, which covers the
  label and city data the page manipulates).
* `Array.prototype.sort` is modelled as a stable merge sort
  (`List.mergeSort`), as required of JS engines by ES2019.  Per the
  ECMAScript `SortCompare` step "if v is NaN, return +0", a comparator
  result of NaN is modelled as the comparator returning 0.
* `new Date(s).getTime()` is modelled by `jsGetTime`, which returns
  `none` for an invalid date (JS `NaN`) and otherwise a strictly
  monotone integer encoding of the ISO 8601 timestamp (second
  granularity).  The sort only inspects the sign of comparator
  differences, so any order-isomorphic encoding of the time line is
  faithful.
* The supabase client reports query errors in-band as a `{ data, error }`
  pair rather than by throwing; the source itself witnesses this with
  its explicit `if (propertiesError) throw propertiesError` checks in
  `fetchRooms`.  Store reads are therefore modelled as `Except` values
  handed to the function, and store writes by a success flag whose
  value the embedded code may or may not consult, exactly as the
  source does.
-/

/-! ### JS string and date primitives -/

/-- Substring test on character lists: `subList n h` is true iff `n`
occurs contiguously inside `h`.  Models `String.prototype.includes`. -/
def subList (n : List Char) : List Char → Bool
  | [] => n.isEmpty
  | c :: t => n.isPrefixOf (c :: t) || subList n t

/-- Models `hay.includes(sub)` on JS strings. -/
def strIncludes (hay sub : String) : Bool :=
  subList sub.toList hay.toList

/-- Models `s.toLowerCase()`: `Char.toLower` mapped over the character
list.  Pointwise identical to core `String.toLower`, but defined by
structural recursion on the character list so that concrete instances
evaluate inside the kernel. -/
def jsToLower (s : String) : String :=
  { data := s.data.map Char.toLower }

/-- Decimal digit value of a character, if it is a digit. -/
def digitVal? (c : Char) : Option Nat :=
  if c.isDigit then some (c.toNat - 48) else none

/-- Two-digit decimal number from two characters. -/
def twoDigits? (a b : Char) : Option Nat :=
  match digitVal? a, digitVal? b with
  | some x, some y => some (x * 10 + y)
  | _, _ => none

/-- Four-digit decimal number from four characters. -/
def fourDigits? (a b c d : Char) : Option Nat :=
  match digitVal? a, digitVal? b, digitVal? c, digitVal? d with
  | some x, some y, some z, some w => some (x * 1000 + y * 100 + z * 10 + w)
  | _, _, _, _ => none

/-- Combine validated date/time fields into a strictly monotone integer
encoding of the timestamp (second granularity). -/
def dateCode? (y mo da h mi s : Nat) : Option Int :=
  if 1 ≤ mo ∧ mo ≤ 12 ∧ 1 ≤ da ∧ da ≤ 31 ∧ h < 24 ∧ mi < 60 ∧ s < 60 then
    some (((y * 10000 + mo * 100 + da) * 100000 + (h * 3600 + mi * 60 + s) : Nat) : Int)
  else
    none

/-- Models `new Date(s).getTime()` for the ISO 8601 strings supabase
stores in `created_at` (`YYYY-MM-DD` or `YYYY-MM-DDTHH:MM:SS…`).
Returns `none` where JS yields `NaN` (empty, malformed or out-of-range
strings), otherwise a monotone integer encoding of the timestamp. -/
def jsGetTime (s : String) : Option Int :=
  match s.toList with
  | [y1, y2, y3, y4, '-', m1, m2, '-', d1, d2] =>
    match fourDigits? y1 y2 y3 y4, twoDigits? m1 m2, twoDigits? d1 d2 with
    | some y, some mo, some da => dateCode? y mo da 0 0 0
    | _, _, _ => none
  | y1 :: y2 :: y3 :: y4 :: '-' :: m1 :: m2 :: '-' :: d1 :: d2 :: 'T' ::
      h1 :: h2 :: ':' :: i1 :: i2 :: ':' :: s1 :: s2 :: _ =>
    match fourDigits? y1 y2 y3 y4, twoDigits? m1 m2, twoDigits? d1 d2,
          twoDigits? h1 h2, twoDigits? i1 i2, twoDigits? s1 s2 with
    | some y, some mo, some da, some h, some mi, some sec => dateCode? y mo da h mi sec
    | _, _, _, _, _, _ => none
  | _ => none

/-! ### Data model (`types.ts` shapes as used by Marketplace.tsx) -/

/-- A `properties` row, as selected by the marketplace page. -/
structure Property where
  id : String
  name : String
  address : String
  city : String
  marketplace_enabled : Bool
  marketplace_status : String
  photos : List String
deriving DecidableEq

/-- A `room_types` row.  `created_at` is optional: the sort comparator
defends against its absence with `room.created_at || ''`. -/
structure RoomType where
  id : String
  property_id : String
  name : String
  price : Int
  max_occupancy : Nat
  renter_gender : String
  enable_daily_price : Bool
  enable_weekly_price : Bool
  enable_yearly_price : Bool
  photos : List String
  created_at : Option String
deriving DecidableEq

/-- `RoomWithProperty` from Marketplace.tsx: a room joined with its
property plus the `isSaved` annotation. -/
structure RoomWithProperty extends RoomType where
  property : Property
  isSaved : Bool
deriving DecidableEq

/-- A `saved_properties` row. -/
structure SavedMark where
  property_id : String
  user_id : String
deriving DecidableEq

/-- The filter state of the page: `searchQuery` and `selectedCity`
useState values together with the `filters` record
`{ priceRange, occupancy, gender, type }`.  The code's `'all'`
sentinel for the occupancy selector (compared via
`parseInt(filters.occupancy)`) is rendered as `none`; a numeric
selector string as `some n`.  The other selectors keep the code's
literal `"all"` sentinel strings. -/
structure FilterCriteria where
  searchQuery : String
  selectedCity : String
  priceMin : Int
  priceMax : Int
  occupancy : Option Nat
  gender : String
  type : String
deriving DecidableEq

/-- The `sortBy` state: `'price-asc' | 'price-desc' | 'newest'`. -/
inductive SortMode where
  | priceAsc
  | priceDesc
  | newest
deriving DecidableEq

/-! ### Filter/Sort Engine (`filteredRooms`, Marketplace.tsx lines 418-443) -/

/-- `matchesSearch` of the filter callback: case-insensitive substring
match of the query against room name, property name, city, address. -/
def matchesSearch (c : FilterCriteria) (room : RoomWithProperty) : Bool :=
  strIncludes (jsToLower room.name) (jsToLower c.searchQuery) ||
  strIncludes (jsToLower room.property.name) (jsToLower c.searchQuery) ||
  strIncludes (jsToLower room.property.city) (jsToLower c.searchQuery) ||
  strIncludes (jsToLower room.property.address) (jsToLower c.searchQuery)

/-- `matchesCity`: selector `'all'` passes everything, otherwise exact
match on the property city. -/
def matchesCity (c : FilterCriteria) (room : RoomWithProperty) : Bool :=
  c.selectedCity == "all" || room.property.city == c.selectedCity

/-- `matchesPrice`: `room.price >= priceRange[0] && room.price <= priceRange[1]`. -/
def matchesPrice (c : FilterCriteria) (room : RoomWithProperty) : Bool :=
  decide (c.priceMin ≤ room.price) && decide (room.price ≤ c.priceMax)

/-- `matchesOccupancy`: selector `'all'` passes everything, otherwise
exact equality with `max_occupancy`. -/
def matchesOccupancy (c : FilterCriteria) (room : RoomWithProperty) : Bool :=
  match c.occupancy with
  | none => true
  | some n => room.max_occupancy == n

/-- `matchesGender`: selector `'all'` passes everything, otherwise exact
equality with `renter_gender`. -/
def matchesGender (c : FilterCriteria) (room : RoomWithProperty) : Bool :=
  c.gender == "all" || room.renter_gender == c.gender

/-- `matchesType`: selector `'all'` passes everything, otherwise
case-insensitive equality with the room name label. -/
def matchesType (c : FilterCriteria) (room : RoomWithProperty) : Bool :=
  c.type == "all" || jsToLower room.name == jsToLower c.type

/-- The conjunction returned by the filter callback. -/
def matchesFilter (c : FilterCriteria) (room : RoomWithProperty) : Bool :=
  matchesSearch c room && matchesCity c room && matchesPrice c room &&
  matchesOccupancy c room && matchesGender c room && matchesType c room

/-- The sort comparator of `filteredRooms`.  For `newest` the code
computes `new Date(b.created_at || '').getTime() - new Date(a.created_at
|| '').getTime()`; when either side is an invalid date the JS result is
NaN, which the ECMAScript `SortCompare` step coerces to +0, i.e. the
pair compares as equal. -/
def sortCmp (mode : SortMode) (a b : RoomWithProperty) : Int :=
  match mode with
  | .priceAsc => a.price - b.price
  | .priceDesc => b.price - a.price
  | .newest =>
    match jsGetTime (b.created_at.getD ""), jsGetTime (a.created_at.getD "") with
    | some tb, some ta => tb - ta
    | _, _ => 0

/-- The boolean "keep `a` before `b`" relation induced by the comparator:
a stable sort places `a` left of `b` whenever the comparator is ≤ 0. -/
def sortLe (mode : SortMode) (a b : RoomWithProperty) : Bool :=
  decide (sortCmp mode a b ≤ 0)

/-- `filteredRooms` (Marketplace.tsx lines 418-443):
`rooms.filter(...).sort(...)` with the six-predicate conjunction and
the selected comparator.  JS sort is stable, modelled by `mergeSort`. -/
def filteredRooms (rooms : List RoomWithProperty) (c : FilterCriteria)
    (sortBy : SortMode) : List RoomWithProperty :=
  (rooms.filter (fun room => matchesFilter c room)).mergeSort
    (fun a b => sortLe sortBy a b)

/-! ### Listing Source Adapter + Aggregator + Save-State Resolver
(`fetchRooms`, Marketplace.tsx lines 29-88) -/

/-- An in-band store error (`{ error }` of a supabase response). -/
structure StoreErr where
  msg : String
deriving DecidableEq

/-- The component state touched by `fetchRooms`. -/
structure MarketplaceState where
  rooms : List RoomWithProperty
  cities : List String
  error : Option String
  isLoading : Bool
deriving DecidableEq

/-- First-occurrence-order deduplication with an accumulator of the
values already seen. -/
def dedupFirst (seen : List String) : List String → List String
  | [] => []
  | a :: t => if a ∈ seen then dedupFirst seen t else a :: dedupFirst (a :: seen) t

/-- The `uniqueCities` value of `fetchRooms`: `[...new Set(xs)]`, i.e.
deduplication keeping the first occurrence of each value in order (a JS
`Set` iterates in insertion order). -/
def uniqueCities (cities : List String) : List String :=
  dedupFirst [] cities

/-- The per-property room loop of `fetchRooms` (lines 47-63): query the
rooms of each property in order, abort at the first in-band error
(`if (roomTypesError) throw roomTypesError`), otherwise append the
rooms joined with their property and `isSaved := false`. -/
def collectRooms (roomQuery : String → Except StoreErr (List RoomType)) :
    List Property → Except StoreErr (List RoomWithProperty)
  | [] => .ok []
  | p :: ps =>
    match roomQuery p.id with
    | .error e => .error e
    | .ok roomTypes =>
      match collectRooms roomQuery ps with
      | .error e => .error e
      | .ok rest =>
        .ok ((roomTypes.map
          (fun room => { toRoomType := room, property := p, isSaved := false })) ++ rest)

/-- The saved-state pass of `fetchRooms` (lines 65-79): with no current
user the rooms are untouched; with a user, if the `saved_properties`
query returned data, each room's `isSaved` becomes membership of its
property id in the saved set (a failed query leaves `data` null and the
pass is skipped). -/
def resolveSaved (rooms : List RoomWithProperty) (user : Option String)
    (savedFetch : Option (List String)) : List RoomWithProperty :=
  match user with
  | none => rooms
  | some _ =>
    match savedFetch with
    | none => rooms
    | some savedIds =>
      rooms.map (fun room => { room with isSaved := savedIds.contains room.property.id })

/-- `fetchRooms` (lines 29-88) as a state transformer over the store
responses.  `propsResult` is the outcome of the published-properties
query; `roomQuery` gives each per-property `room_types` query outcome;
`user` is the auth result; `savedFetch` the `saved_properties` data
(null on error).  The throw of a query error lands in the catch block,
which sets the single error message; `setRooms` runs only on the
fully successful path, while `setCities` already ran right after the
properties query. -/
def fetchRooms (s : MarketplaceState)
    (propsResult : Except StoreErr (List Property))
    (roomQuery : String → Except StoreErr (List RoomType))
    (user : Option String) (savedFetch : Option (List String)) : MarketplaceState :=
  match propsResult with
  | .error _ => { s with error := some "Failed to load rooms", isLoading := false }
  | .ok properties =>
    let s1 := { s with cities := uniqueCities (properties.map (fun p : Property => p.city)) }
    match collectRooms roomQuery properties with
    | .error _ => { s1 with error := some "Failed to load rooms", isLoading := false }
    | .ok allRooms =>
      { s1 with rooms := resolveSaved allRooms user savedFetch, isLoading := false }

/-! ### Save-State Mutator (`handleSaveRoom`, Marketplace.tsx lines 90-129) -/

/-- The observable outcome of one `handleSaveRoom` call: the rooms
state, the `saved_properties` store content, whether the page navigated
to the auth route, and whether any error was surfaced to the caller
(the catch block only logs to the console and never sets error state). -/
structure SaveResult where
  rooms : List RoomWithProperty
  store : List SavedMark
  navigatedToAuth : Bool
  errorSignalled : Bool
deriving DecidableEq

/-- `handleSaveRoom` (lines 90-129).  `writeOk` is whether the store
write succeeds; its in-band error object is never read by the source
(contrast the explicit `if (propertiesError) throw` in `fetchRooms`),
so a failed write does not throw and execution falls through to the
local `setRooms` flip unconditionally.  On success the delete removes
the marks matching `(property_id, user_id)` and the insert appends one
row. -/
def handleSaveRoom (rooms : List RoomWithProperty) (propertyId roomId : String)
    (user : Option String) (store : List SavedMark) (writeOk : Bool) : SaveResult :=
  match user with
  | none =>
    { rooms := rooms, store := store, navigatedToAuth := true, errorSignalled := false }
  | some uid =>
    match rooms.find? (fun r => r.id == roomId) with
    | none =>
      { rooms := rooms, store := store, navigatedToAuth := false, errorSignalled := false }
    | some room =>
      let store' :=
        if writeOk then
          if room.isSaved then
            store.filter (fun m => ¬ (m.property_id = propertyId ∧ m.user_id = uid))
          else
            store ++ [{ property_id := propertyId, user_id := uid }]
        else
          store
      { rooms := rooms.map (fun r =>
          if r.id = roomId then { r with isSaved := !r.isSaved } else r),
        store := store',
        navigatedToAuth := false,
        errorSignalled := false }

/-! ### Concrete exemplar data (from the spec's scenario section) -/

/-- A published property in Jakarta. -/
def propJakarta : Property :=
  { id := "p1", name := "Kos Mawar", address := "Jl. Sudirman 1", city := "Jakarta",
    marketplace_enabled := true, marketplace_status := "published", photos := [] }

/-- A published property in Bandung. -/
def propBandung : Property :=
  { id := "p2", name := "Kos Melati", address := "Jl. Asia Afrika 2", city := "Bandung",
    marketplace_enabled := true, marketplace_status := "published", photos := [] }

/-- Listing r1: Jakarta, price 500000, created 2024-01-01. -/
def roomR1 : RoomWithProperty :=
  { id := "r1", property_id := "p1", name := "standard", price := 500000,
    max_occupancy := 2, renter_gender := "male",
    enable_daily_price := false, enable_weekly_price := false, enable_yearly_price := false,
    photos := [], created_at := some "2024-01-01", property := propJakarta, isSaved := false }

/-- Listing r2: Bandung, price 300000, created 2024-02-01. -/
def roomR2 : RoomWithProperty :=
  { id := "r2", property_id := "p2", name := "single", price := 300000,
    max_occupancy := 1, renter_gender := "female",
    enable_daily_price := false, enable_weekly_price := false, enable_yearly_price := false,
    photos := [], created_at := some "2024-02-01", property := propBandung, isSaved := false }

/-- Listing r3: like r1 but with no creation timestamp. -/
def roomR3 : RoomWithProperty :=
  { roomR1 with id := "r3", created_at := none }

/-- Listing r4: like r1 but priced above the page's default price cap. -/
def roomR4 : RoomWithProperty :=
  { roomR1 with id := "r4", price := 10000001 }

/-- A second room of the Jakarta property. -/
def roomR5 : RoomWithProperty :=
  { roomR1 with id := "r5", name := "deluxe", price := 700000 }

/-- The page's initial filter state: empty query, every selector at its
`'all'` sentinel, price range `[0, 10000000]`. -/
def critAll : FilterCriteria :=
  { searchQuery := "", selectedCity := "all", priceMin := 0, priceMax := 10000000,
    occupancy := none, gender := "all", type := "all" }

/-! ### Helper lemmas -/

theorem subList_nil (h : List Char) : subList [] h = true := by
  cases h <;> simp [subList, List.isPrefixOf, List.isEmpty]

theorem strIncludes_empty (hay : String) : strIncludes hay "" = true :=
  subList_nil hay.toList

theorem jsToLower_empty : jsToLower "" = "" := rfl

theorem mem_mergeSort_self {α} (le : α → α → Bool) (l : List α) (a : α) :
    a ∈ l.mergeSort le ↔ a ∈ l :=
  List.mem_mergeSort

/-- A stable sort does not reorder a block of pairwise-tied elements:
if two elements satisfying `pred` always compare `le`, filtering the
sorted list by `pred` recovers exactly the filtered input. -/
theorem mergeSort_filter_of_pairwise_le {α} (le : α → α → Bool)
    (htrans : ∀ a b c, le a b → le b c → le a c)
    (htotal : ∀ a b, le a b || le b a)
    (pred : α → Bool) (hpred : ∀ a b, pred a → pred b → le a b)
    (l : List α) : (l.mergeSort le).filter pred = l.filter pred := by
  have hpw : (l.filter pred).Pairwise (fun a b => le a b = true) :=
    List.pairwise_of_forall_mem_list (fun a ha b hb =>
      hpred a b (List.mem_filter.mp ha).2 (List.mem_filter.mp hb).2)
  have h1 : List.Sublist (l.filter pred) (l.mergeSort le) :=
    List.sublist_mergeSort htrans htotal hpw (List.filter_sublist l)
  have heq : (l.filter pred).filter pred = l.filter pred :=
    List.filter_eq_self.mpr (fun a ha => (List.mem_filter.mp ha).2)
  have h2 : List.Sublist (l.filter pred) ((l.mergeSort le).filter pred) := by
    have := h1.filter pred
    rwa [heq] at this
  have hperm : List.Perm ((l.mergeSort le).filter pred) (l.filter pred) :=
    (List.mergeSort_perm l le).filter pred
  exact (h2.eq_of_length hperm.length_eq.symm).symm

theorem mem_dedupFirst (x : String) :
    ∀ (l seen : List String), x ∈ dedupFirst seen l ↔ x ∈ l ∧ x ∉ seen := by
  intro l
  induction l with
  | nil => intro seen; simp [dedupFirst]
  | cons a t ih =>
    intro seen
    by_cases hc : a ∈ seen
    · rw [dedupFirst, if_pos hc, ih, List.mem_cons]
      constructor
      · rintro ⟨hx, hn⟩; exact ⟨Or.inr hx, hn⟩
      · rintro ⟨hx | hx, hn⟩
        · exact absurd (hx ▸ hc) hn
        · exact ⟨hx, hn⟩
    · rw [dedupFirst, if_neg hc]
      simp only [List.mem_cons, ih]
      by_cases hxa : x = a
      · subst hxa; tauto
      · tauto

theorem nodup_dedupFirst : ∀ (l seen : List String), (dedupFirst seen l).Nodup := by
  intro l
  induction l with
  | nil => intro seen; simp [dedupFirst]
  | cons a t ih =>
    intro seen
    by_cases hc : a ∈ seen
    · rw [dedupFirst, if_pos hc]; exact ih seen
    · rw [dedupFirst, if_neg hc]
      refine List.Nodup.cons ?_ (ih (a :: seen))
      intro hmem
      exact ((mem_dedupFirst a t (a :: seen)).mp hmem).2 (List.mem_cons_self a seen)

theorem mem_uniqueCities (x : String) (l : List String) :
    x ∈ uniqueCities l ↔ x ∈ l := by
  rw [uniqueCities, mem_dedupFirst]
  simp

theorem nodup_uniqueCities (l : List String) : (uniqueCities l).Nodup :=
  nodup_dedupFirst l []

/-- Any room-query failure among the fetched properties makes the
per-property room loop abort with an error. -/
theorem collectRooms_error_of_mem (roomQuery : String → Except StoreErr (List RoomType))
    (props : List Property) (hp : ∃ p ∈ props, ∃ e, roomQuery p.id = .error e) :
    ∃ e, collectRooms roomQuery props = .error e := by
  induction props with
  | nil => simp at hp
  | cons p ps ih =>
    rcases hp with ⟨q, hq, e, he⟩
    rcases List.mem_cons.mp hq with h | h
    · subst h
      exact ⟨e, by simp [collectRooms, he]⟩
    · cases hpq : roomQuery p.id with
      | error e2 => exact ⟨e2, by simp [collectRooms, hpq]⟩
      | ok rts =>
        obtain ⟨e3, he3⟩ := ih ⟨q, h, e, he⟩
        exact ⟨e3, by simp [collectRooms, hpq, he3]⟩

/-! ### Claim theorems -/

/-- C1: a listing appears in the output of the Filter/Sort Engine iff it
is an input listing satisfying all six predicates simultaneously — the
case-insensitive text query match (empty query matching everything), the
city selector, the inclusive price range, the occupancy selector, the
gender selector, and the case-insensitive room-type selector. -/
theorem filteredRooms_mem_iff_all_predicates :
    (∀ (rooms : List RoomWithProperty) (c : FilterCriteria) (mode : SortMode)
        (r : RoomWithProperty),
      r ∈ filteredRooms rooms c mode ↔
        r ∈ rooms ∧ matchesSearch c r = true ∧ matchesCity c r = true ∧
          matchesPrice c r = true ∧ matchesOccupancy c r = true ∧
          matchesGender c r = true ∧ matchesType c r = true) ∧
    (∀ (c : FilterCriteria) (r : RoomWithProperty),
      c.searchQuery = "" → matchesSearch c r = true) := by
  constructor
  · intro rooms c mode r
    simp [filteredRooms, List.mem_filter, matchesFilter, Bool.and_eq_true, and_assoc]
  · intro c r h
    simp [matchesSearch, h, jsToLower_empty, strIncludes_empty]

/-- Witness for C1: the empty-query hypothesis discharged on the page's
initial criteria and listing r1. -/
theorem filteredRooms_mem_iff_all_predicates_witness :
    critAll.searchQuery = "" ∧ matchesSearch critAll roomR1 = true :=
  ⟨rfl, filteredRooms_mem_iff_all_predicates.2 critAll roomR1 rfl⟩

/-- C8: with no signed-in user, `handleSaveRoom` raises the
authentication-required signal (navigation to the auth route), attempts
no store write, and leaves both the saved marks (hence the mark count of
the targeted property) and the listing collection unchanged. -/
theorem handleSaveRoom_auth_required :
    ∀ (rooms : List RoomWithProperty) (propertyId roomId : String)
      (store : List SavedMark) (writeOk : Bool),
      (handleSaveRoom rooms propertyId roomId none store writeOk).navigatedToAuth = true ∧
      (handleSaveRoom rooms propertyId roomId none store writeOk).store = store ∧
      (handleSaveRoom rooms propertyId roomId none store writeOk).rooms = rooms ∧
      ((handleSaveRoom rooms propertyId roomId none store writeOk).store.filter
          (fun m => m.property_id == propertyId)).length =
        (store.filter (fun m => m.property_id == propertyId)).length := by
  intro rooms propertyId roomId store writeOk
  simp [handleSaveRoom]

/-- C2 (code bug): when the store write fails (`writeOk = false`) on an
unsaved listing with a signed-in user, the source still flips the local
`isSaved` flag — the insert/delete result is never inspected — and no
error is surfaced to the caller, contradicting the specified behaviour
of leaving local state unchanged and signalling `SaveError`. -/
theorem handleSaveRoom_flips_despite_write_failure :
    (handleSaveRoom [roomR1] "p1" "r1" (some "u1") [] false).rooms =
      [{ roomR1 with isSaved := true }] ∧
    (handleSaveRoom [roomR1] "p1" "r1" (some "u1") [] false).rooms ≠ [roomR1] ∧
    (handleSaveRoom [roomR1] "p1" "r1" (some "u1") [] false).errorSignalled = false ∧
    roomR1.isSaved = false := by
  decide

/-- C4 counterexample: with every selector at `'all'` and an empty
query but a listing priced above the criteria's price cap (here the
page's own default cap of 10000000), the listing is dropped — the
output is not a permutation of the input. -/
theorem filteredRooms_drops_overpriced_listing :
    critAll.searchQuery = "" ∧ critAll.selectedCity = "all" ∧ critAll.occupancy = none ∧
    critAll.gender = "all" ∧ critAll.type = "all" ∧
    roomR4 ∈ [roomR4] ∧ filteredRooms [roomR4] critAll .priceAsc = [] := by
  refine ⟨rfl, rfl, rfl, rfl, rfl, by decide, ?_⟩
  have h1 : [roomR4].filter (fun r => matchesFilter critAll r) = [] := by decide
  rw [filteredRooms, h1]
  simp

/-- C4 (amended): if every selector is `'all'`, the query is empty, and
additionally every listing's price lies within the criteria's
`[priceMin, priceMax]`, then `filteredRooms` is exactly the stable sort
of the input by the SortMode comparator — a permutation of the input
with no listing dropped. -/
theorem filteredRooms_all_any_within_price_perm :
    ∀ (rooms : List RoomWithProperty) (c : FilterCriteria) (mode : SortMode),
      c.searchQuery = "" → c.selectedCity = "all" → c.occupancy = none →
      c.gender = "all" → c.type = "all" →
      (∀ r ∈ rooms, c.priceMin ≤ r.price ∧ r.price ≤ c.priceMax) →
      filteredRooms rooms c mode = rooms.mergeSort (fun a b => sortLe mode a b) ∧
      List.Perm (filteredRooms rooms c mode) rooms := by
  intro rooms c mode hq hcity hocc hgen htype hprice
  have hall : ∀ r ∈ rooms, matchesFilter c r = true := by
    intro r hr
    obtain ⟨h1, h2⟩ := hprice r hr
    simp [matchesFilter, matchesSearch, matchesCity, matchesPrice, matchesOccupancy,
      matchesGender, matchesType, hq, hcity, hocc, hgen, htype,
      jsToLower_empty, strIncludes_empty, h1, h2]
  have hf : rooms.filter (fun r => matchesFilter c r) = rooms :=
    List.filter_eq_self.mpr hall
  constructor
  · rw [filteredRooms, hf]
  · rw [filteredRooms, hf]
    exact List.mergeSort_perm rooms _

/-- Witness for the amended C4 at the two spec-scenario listings. -/
theorem filteredRooms_all_any_within_price_perm_witness :
    filteredRooms [roomR1, roomR2] critAll .priceAsc =
      [roomR1, roomR2].mergeSort (fun a b => sortLe .priceAsc a b) ∧
    List.Perm (filteredRooms [roomR1, roomR2] critAll .priceAsc) [roomR1, roomR2] :=
  filteredRooms_all_any_within_price_perm [roomR1, roomR2] critAll .priceAsc
    rfl rfl rfl rfl rfl (by decide)

/-- C3 counterexample: under `newest`, the listing r3 with a missing
creation timestamp keeps its place in front of the listing r2 with a
valid timestamp — it does not sort after every valid-timestamp listing
as an epoch-start value would. -/
theorem filteredRooms_newest_missing_ts_not_last :
    jsGetTime (roomR3.created_at.getD "") = none ∧
    jsGetTime (roomR2.created_at.getD "") = some 2024020100000 ∧
    filteredRooms [roomR3, roomR2] critAll .newest = [roomR3, roomR2] ∧
    filteredRooms [roomR3, roomR2] critAll .newest ≠ [roomR2, roomR3] := by
  have h1 : [roomR3, roomR2].filter (fun r => matchesFilter critAll r) = [roomR3, roomR2] := by
    decide
  have h2 : sortLe .newest roomR3 roomR2 = true := by decide
  have h3 : filteredRooms [roomR3, roomR2] critAll .newest = [roomR3, roomR2] := by
    rw [filteredRooms, h1]
    simp [List.mergeSort, List.splitInTwo, List.merge, h2]
  refine ⟨by decide, by decide, h3, ?_⟩
  rw [h3]
  decide

/-- The numeric key the `newest` comparator compares; 0 when the
timestamp is invalid (it is never inspected in that case). -/
def timeKey (r : RoomWithProperty) : Int :=
  (jsGetTime (r.created_at.getD "")).getD 0

/-- C3 (amended): under `newest`, a listing with a missing/unparsable
timestamp compares as equal (comparator 0, the ECMAScript NaN rule) to
every other listing in both directions, so the stable sort leaves it in
its relative input position; the engine never raises an error (its
output is always a permutation of the filtered input); and on
collections whose timestamps are all valid the output is ordered by
creation timestamp descending. -/
theorem filteredRooms_newest_nan_behavior :
    (∀ a b : RoomWithProperty,
      jsGetTime (a.created_at.getD "") = none ∨ jsGetTime (b.created_at.getD "") = none →
      sortCmp .newest a b = 0 ∧ sortCmp .newest b a = 0) ∧
    (∀ (rooms : List RoomWithProperty) (c : FilterCriteria),
      List.Perm (filteredRooms rooms c .newest)
        (rooms.filter (fun r => matchesFilter c r))) ∧
    (∀ (rooms : List RoomWithProperty) (c : FilterCriteria),
      (∀ r ∈ rooms, ∃ t, jsGetTime (r.created_at.getD "") = some t) →
      List.Pairwise (fun a b => timeKey b ≤ timeKey a)
        (filteredRooms rooms c .newest)) := by
  refine ⟨?_, ?_, ?_⟩
  · intro a b h
    rcases h with h | h
    · cases hb : jsGetTime (b.created_at.getD "") <;> simp [sortCmp, h, hb]
    · cases ha : jsGetTime (a.created_at.getD "") <;> simp [sortCmp, h, ha]
  · intro rooms c
    exact List.mergeSort_perm _ _
  · intro rooms c hv
    have hv' : ∀ r ∈ rooms.filter (fun r => matchesFilter c r),
        ∃ t, jsGetTime (r.created_at.getD "") = some t :=
      fun r hr => hv r (List.mem_filter.mp hr).1
    have hmap : (((rooms.filter (fun r => matchesFilter c r)).mergeSort
          (fun a b => sortLe .newest a b)).map timeKey) =
        ((rooms.filter (fun r => matchesFilter c r)).map timeKey).mergeSort
          (fun x y => decide (y ≤ x)) := by
      apply List.map_mergeSort
      intro a ha b hb
      obtain ⟨ta, hta⟩ := hv' a ha
      obtain ⟨tb, htb⟩ := hv' b hb
      simp only [sortLe, sortCmp, hta, htb, timeKey, Option.getD_some]
      rw [decide_eq_decide]
      omega
    have hs : List.Pairwise (fun x y : Int => decide (y ≤ x) = true)
        (((rooms.filter (fun r => matchesFilter c r)).map timeKey).mergeSort
          (fun x y => decide (y ≤ x))) :=
      List.sorted_mergeSort
        (fun a b c h1 h2 => by
          simp only [decide_eq_true_eq] at *
          omega)
        (fun a b => by
          simp only [Bool.or_eq_true, decide_eq_true_eq]
          omega)
        ((rooms.filter (fun r => matchesFilter c r)).map timeKey)
    rw [← hmap] at hs
    have hp := List.pairwise_map.mp hs
    exact hp.imp (fun h => by simpa using h)

/-- Witness for the amended C3: the NaN-equality at the concrete pair
(r3, r2) and the descending order on an all-valid collection. -/
theorem filteredRooms_newest_nan_behavior_witness :
    (sortCmp .newest roomR3 roomR2 = 0 ∧ sortCmp .newest roomR2 roomR3 = 0) ∧
    List.Pairwise (fun a b => timeKey b ≤ timeKey a)
      (filteredRooms [roomR1, roomR2] critAll .newest) :=
  ⟨filteredRooms_newest_nan_behavior.1 roomR3 roomR2 (Or.inl (by decide)),
   filteredRooms_newest_nan_behavior.2.2 [roomR1, roomR2] critAll (by
     intro r hr
     rcases List.mem_cons.mp hr with h | h
     · subst h; exact ⟨2024010100000, by decide⟩
     · simp only [List.mem_cons, List.not_mem_nil, or_false] at h
       subst h; exact ⟨2024020100000, by decide⟩)⟩

/-- The part of an annotated listing that is not the `isSaved`
annotation: the room record and the joined property. -/
def baseOf (r : RoomWithProperty) : RoomType × Property := (r.toRoomType, r.property)

/-- C5: the engine's output contains no element not in its input (and
each output element is an input value, unchanged in every field); the
output order is a function of the SortMode and the filtered input
alone; and the stages that touch `isSaved` — the resolver and the
mutator's local update — change no field other than `isSaved`. -/
theorem filteredRooms_subset_immutable :
    (∀ (rooms : List RoomWithProperty) (c : FilterCriteria) (mode : SortMode)
        (r : RoomWithProperty), r ∈ filteredRooms rooms c mode → r ∈ rooms) ∧
    (∀ (c : FilterCriteria) (mode : SortMode) (rooms1 rooms2 : List RoomWithProperty),
      rooms1.filter (fun r => matchesFilter c r) = rooms2.filter (fun r => matchesFilter c r) →
      filteredRooms rooms1 c mode = filteredRooms rooms2 c mode) ∧
    (∀ (rooms : List RoomWithProperty) (user : Option String)
        (savedFetch : Option (List String)),
      (resolveSaved rooms user savedFetch).map baseOf = rooms.map baseOf) ∧
    (∀ (rooms : List RoomWithProperty) (propertyId roomId : String) (user : Option String)
        (store : List SavedMark) (writeOk : Bool),
      ((handleSaveRoom rooms propertyId roomId user store writeOk).rooms).map baseOf =
        rooms.map baseOf) := by
  refine ⟨?_, ?_, ?_, ?_⟩
  · intro rooms c mode r h
    rw [filteredRooms] at h
    exact (List.mem_filter.mp (List.mem_mergeSort.mp h)).1
  · intro c mode rooms1 rooms2 h
    rw [filteredRooms, filteredRooms, h]
  · intro rooms user savedFetch
    cases user with
    | none => rfl
    | some uid =>
      cases savedFetch with
      | none => rfl
      | some ids =>
        simp only [resolveSaved, List.map_map]
        exact List.map_congr_left (fun r _ => rfl)
  · intro rooms pid rid user store ok
    cases user with
    | none => rfl
    | some uid =>
      cases hfind : rooms.find? (fun r => r.id == rid) with
      | none => simp [handleSaveRoom, hfind]
      | some room =>
        simp only [handleSaveRoom, hfind, List.map_map]
        apply List.map_congr_left
        intro r _
        by_cases h : r.id = rid <;> simp [h, baseOf]

/-- Witness for C5: the membership and the filtered-input-determinism
hypotheses discharged on concrete listings ([roomR1, roomR2, roomR4]
and [roomR1, roomR2] have equal filtrations since r4 is over the price
cap). -/
theorem filteredRooms_subset_immutable_witness :
    roomR1 ∈ [roomR1, roomR2] ∧
    filteredRooms [roomR1, roomR2, roomR4] critAll .priceAsc =
      filteredRooms [roomR1, roomR2] critAll .priceAsc := by
  constructor
  · exact filteredRooms_subset_immutable.1 [roomR1, roomR2] critAll .priceAsc roomR1
      (by
        have h1 : [roomR1, roomR2].filter (fun r => matchesFilter critAll r) =
            [roomR1, roomR2] := by decide
        have h2 : sortLe .priceAsc roomR1 roomR2 = false := by decide
        rw [filteredRooms, h1]
        simp [List.mergeSort, List.splitInTwo, List.merge, h2])
  · exact filteredRooms_subset_immutable.2.1 critAll .priceAsc [roomR1, roomR2, roomR4]
      [roomR1, roomR2] (by decide)

/-- C6: with no current user the resolver leaves every (aggregated,
hence unsaved) listing unsaved; with a user and a fetched saved set,
a listing ends up saved exactly when its property id is in the set, so
two rooms of the same property always agree on `isSaved`. -/
theorem resolveSaved_marks_by_property :
    (∀ (rooms : List RoomWithProperty) (savedFetch : Option (List String))
        (r : RoomWithProperty),
      (∀ r0 ∈ rooms, r0.isSaved = false) →
      r ∈ resolveSaved rooms none savedFetch → r.isSaved = false) ∧
    (∀ (rooms : List RoomWithProperty) (uid : String) (ids : List String)
        (r : RoomWithProperty),
      r ∈ resolveSaved rooms (some uid) (some ids) →
      (r.isSaved = true ↔ r.property.id ∈ ids)) ∧
    (∀ (rooms : List RoomWithProperty) (uid : String) (ids : List String)
        (r1 r2 : RoomWithProperty),
      r1 ∈ resolveSaved rooms (some uid) (some ids) →
      r2 ∈ resolveSaved rooms (some uid) (some ids) →
      r1.property.id = r2.property.id → r1.isSaved = r2.isSaved) := by
  refine ⟨?_, ?_, ?_⟩
  · intro rooms savedFetch r hall hr
    exact hall r hr
  · intro rooms uid ids r hr
    simp only [resolveSaved, List.mem_map] at hr
    obtain ⟨r0, hr0, heq⟩ := hr
    subst heq
    simp
  · intro rooms uid ids r1 r2 h1 h2 hid
    simp only [resolveSaved, List.mem_map] at h1 h2
    obtain ⟨a1, ha1, he1⟩ := h1
    obtain ⟨a2, ha2, he2⟩ := h2
    subst he1; subst he2
    simp only at hid ⊢
    rw [hid]

/-- Witness for C6: both Jakarta rooms of the saved property p1 come
out marked, and the no-user case leaves r1 unsaved. -/
theorem resolveSaved_marks_by_property_witness :
    roomR1.isSaved = false ∧
    (({ roomR1 with isSaved := true } : RoomWithProperty).isSaved = true ↔ "p1" ∈ ["p1"]) ∧
    ({ roomR1 with isSaved := true } : RoomWithProperty).isSaved =
      ({ roomR5 with isSaved := true } : RoomWithProperty).isSaved :=
  ⟨resolveSaved_marks_by_property.1 [roomR1] none roomR1 (by decide) (by decide),
   resolveSaved_marks_by_property.2.1 [roomR1, roomR5] "u1" ["p1"]
     { roomR1 with isSaved := true } (by decide),
   resolveSaved_marks_by_property.2.2 [roomR1, roomR5] "u1" ["p1"]
     { roomR1 with isSaved := true } { roomR5 with isSaved := true }
     (by decide) (by decide) (by decide)⟩

/-- C7: the price sorts are stable — restricting the sorted output to
the listings of any given price recovers exactly the filtered input's
sublist of that price, i.e. ties keep their relative input order. -/
theorem filteredRooms_price_sort_stable :
    (∀ (rooms : List RoomWithProperty) (c : FilterCriteria) (p : Int),
      (filteredRooms rooms c .priceAsc).filter (fun r => r.price == p) =
        (rooms.filter (fun r => matchesFilter c r)).filter (fun r => r.price == p)) ∧
    (∀ (rooms : List RoomWithProperty) (c : FilterCriteria) (p : Int),
      (filteredRooms rooms c .priceDesc).filter (fun r => r.price == p) =
        (rooms.filter (fun r => matchesFilter c r)).filter (fun r => r.price == p)) := by
  constructor
  · intro rooms c p
    rw [filteredRooms]
    apply mergeSort_filter_of_pairwise_le
    · intro a b d h1 h2
      simp only [sortLe, sortCmp, decide_eq_true_eq] at h1 h2 ⊢
      omega
    · intro a b
      simp only [sortLe, sortCmp, Bool.or_eq_true, decide_eq_true_eq]
      omega
    · intro a b h1 h2
      simp only [beq_iff_eq] at h1 h2
      simp only [sortLe, sortCmp, decide_eq_true_eq]
      omega
  · intro rooms c p
    rw [filteredRooms]
    apply mergeSort_filter_of_pairwise_le
    · intro a b d h1 h2
      simp only [sortLe, sortCmp, decide_eq_true_eq] at h1 h2 ⊢
      omega
    · intro a b
      simp only [sortLe, sortCmp, Bool.or_eq_true, decide_eq_true_eq]
      omega
    · intro a b h1 h2
      simp only [beq_iff_eq] at h1 h2
      simp only [sortLe, sortCmp, decide_eq_true_eq]
      omega

/-- The page state right after mount. -/
def stateInit : MarketplaceState :=
  { rooms := [], cities := [], error := none, isLoading := true }

/-- C9: if the properties query or any per-property room query fails,
`fetchRooms` ends with the single failure message set and the rooms
state untouched — no partial listing collection is committed. -/
theorem fetchRooms_failure_atomic :
    ∀ (s : MarketplaceState) (propsResult : Except StoreErr (List Property))
      (roomQuery : String → Except StoreErr (List RoomType))
      (user : Option String) (savedFetch : Option (List String)),
      ((∃ e, propsResult = .error e) ∨
        (∃ props, propsResult = .ok props ∧ ∃ p ∈ props, ∃ e, roomQuery p.id = .error e)) →
      (fetchRooms s propsResult roomQuery user savedFetch).error =
        some "Failed to load rooms" ∧
      (fetchRooms s propsResult roomQuery user savedFetch).rooms = s.rooms := by
  intro s pr rq user sf h
  rcases h with ⟨e, he⟩ | ⟨props, hpr, hp⟩
  · subst he
    simp [fetchRooms]
  · subst hpr
    obtain ⟨e2, he2⟩ := collectRooms_error_of_mem rq props hp
    simp [fetchRooms, he2]

/-- Witness for C9: a failing properties query on the initial state. -/
theorem fetchRooms_failure_atomic_witness :
    (fetchRooms stateInit (.error ⟨"boom"⟩) (fun _ => .ok []) none none).error =
      some "Failed to load rooms" ∧
    (fetchRooms stateInit (.error ⟨"boom"⟩) (fun _ => .ok []) none none).rooms = [] :=
  fetchRooms_failure_atomic stateInit (.error ⟨"boom"⟩) (fun _ => .ok []) none none
    (Or.inl ⟨⟨"boom"⟩, rfl⟩)

/-- C10: once the properties query succeeds, the committed city facet is
the first-occurrence deduplication of the cities of all published
properties (zero-room properties included), independently of the room
queries; if a room query then fails, the cities have still been updated
while the rooms state is left unchanged and the failure is flagged. -/
theorem fetchRooms_cities_before_rooms :
    ∀ (s : MarketplaceState) (props : List Property)
      (roomQuery : String → Except StoreErr (List RoomType))
      (user : Option String) (savedFetch : Option (List String)),
      (fetchRooms s (.ok props) roomQuery user savedFetch).cities =
        uniqueCities (props.map (fun p : Property => p.city)) ∧
      (∀ city, city ∈ (fetchRooms s (.ok props) roomQuery user savedFetch).cities ↔
        city ∈ props.map (fun p : Property => p.city)) ∧
      ((fetchRooms s (.ok props) roomQuery user savedFetch).cities).Nodup ∧
      ((∃ p ∈ props, ∃ e, roomQuery p.id = .error e) →
        (fetchRooms s (.ok props) roomQuery user savedFetch).rooms = s.rooms ∧
        (fetchRooms s (.ok props) roomQuery user savedFetch).error =
          some "Failed to load rooms") := by
  intro s props rq user sf
  cases hcr : collectRooms rq props with
  | error e =>
    refine ⟨by simp [fetchRooms, hcr], ?_, ?_, ?_⟩
    · intro city
      simp [fetchRooms, hcr, mem_uniqueCities]
    · simp [fetchRooms, hcr]
      exact nodup_uniqueCities _
    · intro _
      simp [fetchRooms, hcr]
  | ok allRooms =>
    refine ⟨by simp [fetchRooms, hcr], ?_, ?_, ?_⟩
    · intro city
      simp [fetchRooms, hcr, mem_uniqueCities]
    · simp [fetchRooms, hcr]
      exact nodup_uniqueCities _
    · intro hp
      obtain ⟨e2, he2⟩ := collectRooms_error_of_mem rq props hp
      rw [hcr] at he2
      exact absurd he2 (by simp)

/-- Witness for C10: two published properties whose room queries all
fail — both cities are committed, the rooms state stays empty, the
failure is flagged. -/
theorem fetchRooms_cities_before_rooms_witness :
    (fetchRooms stateInit (.ok [propJakarta, propBandung])
        (fun _ => .error ⟨"boom"⟩) none none).cities =
      uniqueCities ([propJakarta, propBandung].map (fun p : Property => p.city)) ∧
    ("Jakarta" ∈ (fetchRooms stateInit (.ok [propJakarta, propBandung])
        (fun _ => .error ⟨"boom"⟩) none none).cities ↔
      "Jakarta" ∈ [propJakarta, propBandung].map (fun p : Property => p.city)) ∧
    (fetchRooms stateInit (.ok [propJakarta, propBandung])
        (fun _ => .error ⟨"boom"⟩) none none).rooms = [] ∧
    (fetchRooms stateInit (.ok [propJakarta, propBandung])
        (fun _ => .error ⟨"boom"⟩) none none).error = some "Failed to load rooms" := by
  have h := fetchRooms_cities_before_rooms stateInit [propJakarta, propBandung]
    (fun _ => .error ⟨"boom"⟩) none none
  have h4 := h.2.2.2 ⟨propJakarta, by decide, ⟨"boom"⟩, rfl⟩
  exact ⟨h.1, h.2.1 "Jakarta", h4.1, h4.2⟩
